import Mathlib

/-!
Verification of the paging simulator (src/simulator.py, src/algorithms.py).

Shallow embedding: virtual pages are `Int` (the Markov policy uses the
sentinel `-1`), frames are `Nat`.  Python dicts/OrderedDicts are embedded
as association lists with unique keys; `OrderedDict` order (front = least
recently used, back = most recently used) is the list order.  Fallible
operations (KeyError, IndexError, unguarded `None` indexing) return
`Option`/`Except`.
-/

namespace PagingSim

abbrev VPage := Int
abbrev Frame := Nat

/-- Embeds `TLB` from src/simulator.py: an LRU cache held in an `OrderedDict`.
`cache` keeps entries oldest-first; `move_to_end` is erase-and-append. -/
structure TLB where
  size : Nat
  cache : List (VPage × Frame)
deriving Repr, DecidableEq

/-- Embeds `TLB.lookup`: on a hit the entry is moved to the end (most recently
used) and the frame returned; a miss leaves the cache untouched. -/
def TLB.lookup (t : TLB) (p : VPage) : Option Frame × TLB :=
  match t.cache.lookup p with
  | some f => (some f, { t with cache := (t.cache.eraseP (fun e => e.1 == p)) ++ [(p, f)] })
  | none => (none, t)

/-- Embeds `TLB.add`: insert or refresh `(p, f)` as most recently used; if the
size now exceeds capacity, pop the least recently used entry (one
`popitem(last=False)` call, exactly as in the source). -/
def TLB.add (t : TLB) (p : VPage) (f : Frame) : TLB :=
  let c := (t.cache.eraseP (fun e => e.1 == p)) ++ [(p, f)]
  { t with cache := if c.length > t.size then c.drop 1 else c }

/-- Embeds `PageTable` from src/simulator.py: a plain dict from virtual page to
frame. -/
structure PageTable where
  mapping : List (VPage × Frame)
deriving Repr, DecidableEq

def PageTable.lookup (pt : PageTable) (p : VPage) : Option Frame :=
  pt.mapping.lookup p

def PageTable.update (pt : PageTable) (p : VPage) (f : Frame) : PageTable :=
  ⟨(pt.mapping.eraseP (fun e => e.1 == p)) ++ [(p, f)]⟩

/-- Embeds `PageTable.evict`: `if page in mapping: del mapping[page]` — a silent
no-op when the page is absent. -/
def PageTable.evict (pt : PageTable) (p : VPage) : PageTable :=
  if (pt.mapping.lookup p).isSome then ⟨pt.mapping.eraseP (fun e => e.1 == p)⟩ else pt

/-- Embeds `Memory` from src/simulator.py: the frame pool — forward frame array,
free list, and reverse page→frame dict. -/
structure Memory where
  num_frames : Nat
  frames : List (Option VPage)
  free_frames : List Frame
  page_to_frame : List (VPage × Frame)
deriving Repr, DecidableEq

def Memory.init (n : Nat) : Memory :=
  ⟨n, List.replicate n none, List.range n, []⟩

def Memory.is_full (m : Memory) : Bool :=
  m.free_frames.isEmpty

/-- Embeds `get_free_frame`: `free_frames.pop(0) if free_frames else None`. -/
def Memory.get_free_frame (m : Memory) : Option (Frame × Memory) :=
  match m.free_frames with
  | [] => none
  | f :: rest => some (f, { m with free_frames := rest })

/-- Embeds `load_page`: writes the forward slot and the reverse mapping.  Note
that the source does NOT remove the frame from the free list. -/
def Memory.load_page (m : Memory) (p : VPage) (f : Frame) : Memory :=
  { m with frames := m.frames.set f (some p),
           page_to_frame := (m.page_to_frame.eraseP (fun e => e.1 == p)) ++ [(p, f)] }

/-- Embeds `evict_page`: `page_to_frame.pop(page)` (KeyError — hence `none` —
when the page is not resident), clear the slot, append the frame to the
free list, return the freed frame. -/
def Memory.evict_page (m : Memory) (p : VPage) : Option (Frame × Memory) :=
  match m.page_to_frame.lookup p with
  | none => none
  | some f => some (f, { m with
      frames := m.frames.set f none,
      page_to_frame := m.page_to_frame.eraseP (fun e => e.1 == p),
      free_frames := m.free_frames ++ [f] })

/-- The statistics dictionary of `Simulator`. -/
structure Stats where
  total_accesses : Nat
  page_hits : Nat
  page_faults : Nat
  tlb_hits : Nat
  tlb_misses : Nat
deriving Repr, DecidableEq

/-- Modelled from the spec: the `EvictionPolicy` strategy interface of
§4.1.  `Simulator.run` in src/simulator.py calls `choose_victim` and
`page_loaded`, but src/algorithms.py only carries the older `page_fault`
contract, so those two operations are missing from src/ and are taken
from the spec: `choose_victim` removes and returns the policy's chosen
victim (pure in pool/table state — it may only update its own
bookkeeping `σ`), `page_loaded` and `page_accessed` update bookkeeping.
`choose_victim` is fallible (`none` = contract failure, e.g. an empty
queue). -/
structure Policy (σ : Type) where
  choose_victim : σ → List (Option VPage) → Option (VPage × σ)
  page_loaded : σ → VPage → σ
  page_accessed : σ → VPage → σ

/-- Modelled from the spec: FIFO's `choose_victim` pops the head of the
insertion-order queue and `page_loaded` appends to the tail (§4.1); this
matches the decision part of `FIFO.page_fault` in src/algorithms.py
(`popleft`/`append`).  `page_accessed` is a no-op, as in the source. -/
def fifoPolicy : Policy (List VPage) where
  choose_victim q _ := match q with
    | [] => none
    | v :: rest => some (v, rest)
  page_loaded q p := q ++ [p]
  page_accessed q _ := q

/-- Embeds `LRU.page_accessed` from src/algorithms.py: remove the page if
present, then append it as most recently used. -/
def lruPageAccessed (order : List VPage) (p : VPage) : List VPage :=
  (if order.contains p then order.erase p else order) ++ [p]

/-- Modelled from the spec: LRU's `choose_victim` pops the head
(least-recently-used) of the recency list and `page_loaded` appends the
freshly loaded page as most-recently-used (§4.1); this matches the
decision part of `LRU.page_fault` in src/algorithms.py (`pop(0)` then
re-append).  `page_accessed` is the source's method. -/
def lruPolicy : Policy (List VPage) where
  choose_victim o _ := match o with
    | [] => none
    | v :: rest => some (v, rest)
  page_loaded o p := o ++ [p]
  page_accessed := lruPageAccessed

/-- What one access did, as observable events: which of the four paths
of §4.4 ran, and on faults which frame (and victim) was involved. -/
inductive Event where
  | tlbHit : Event
  | tableHit : Event
  | faultFree (frame : Frame) : Event
  | faultEvict (victim : VPage) (frame : Frame) : Event
deriving Repr, DecidableEq

/-- The mutable state of `Simulator` (src/simulator.py), with the policy
bookkeeping `σ` in place of the Python `algorithm` object. -/
structure SimState (σ : Type) where
  memory : Memory
  page_table : PageTable
  tlb : TLB
  alg : σ
  stats : Stats
deriving DecidableEq

/-- A fresh `Simulator.__init__` state. -/
def SimState.init (num_frames tlb_size : Nat) (a : σ) : SimState σ :=
  { memory := Memory.init num_frames
    page_table := ⟨[]⟩
    tlb := ⟨tlb_size, []⟩
    alg := a
    stats := ⟨0, 0, 0, 0, 0⟩ }

/-- One iteration of the loop body of `Simulator.run`
(src/simulator.py lines 94-132), for one virtual page reference.
`none` means the Python code would raise (policy contract failure or
KeyError in `evict_page`). -/
def step (pol : Policy σ) (s : SimState σ) (p : VPage) :
    Option (SimState σ × Event) :=
  let st0 := { s.stats with total_accesses := s.stats.total_accesses + 1 }
  match s.tlb.lookup p with
  | (some _, tlb') =>
      some ({ s with
              tlb := tlb'
              stats := { st0 with tlb_hits := st0.tlb_hits + 1,
                                  page_hits := st0.page_hits + 1 }
              alg := pol.page_accessed s.alg p }, .tlbHit)
  | (none, _) =>
      let st1 := { st0 with tlb_misses := st0.tlb_misses + 1 }
      match s.page_table.lookup p with
      | some f =>
          some ({ s with
                  stats := { st1 with page_hits := st1.page_hits + 1 }
                  alg := pol.page_accessed s.alg p
                  tlb := s.tlb.add p f }, .tableHit)
      | none =>
          let st2 := { st1 with page_faults := st1.page_faults + 1 }
          if s.memory.is_full then
            match pol.choose_victim s.alg s.memory.frames with
            | none => none
            | some (victim, a1) =>
                match s.memory.evict_page victim with
                | none => none
                | some (f, m1) =>
                    some ({ memory := m1.load_page p f
                            page_table := (s.page_table.evict victim).update p f
                            tlb := s.tlb.add p f
                            alg := pol.page_loaded a1 p
                            stats := st2 }, .faultEvict victim f)
          else
            match s.memory.get_free_frame with
            | none => none
            | some (f, m1) =>
                some ({ memory := m1.load_page p f
                        page_table := s.page_table.update p f
                        tlb := s.tlb.add p f
                        alg := pol.page_loaded s.alg p
                        stats := st2 }, .faultFree f)

/-- The trace loop of `Simulator.run` (src/simulator.py lines 94-132):
process the trace left to right, collecting the per-access events;
`none` if any access raises.  The unconditional `print_results()`
epilogue of the method is `runAndReport` below. -/
def run (pol : Policy σ) (s : SimState σ) : List VPage → Option (SimState σ × List Event)
  | [] => some (s, [])
  | p :: rest =>
      match step pol s p with
      | none => none
      | some (s', e) =>
          match run pol s' rest with
          | none => none
          | some (s'', es) => some (s'', e :: es)

/-- Embeds the numeric part of `Simulator.print_results`
(src/simulator.py lines 137-147): the TLB hit rate and page hit rate
percentages, both divisions by `total_accesses`.  When
`total_accesses = 0` the division raises ZeroDivisionError — embedded
as `none`.  (Python divides floats; the exact rationals carry the same
crash/no-crash behaviour, which is all the claims use.) -/
def print_results (st : Stats) : Option (ℚ × ℚ) :=
  if st.total_accesses = 0 then none
  else some ((st.tlb_hits : ℚ) / st.total_accesses * 100,
             (st.page_hits : ℚ) / st.total_accesses * 100)

/-- Embeds the whole of `Simulator.run` (src/simulator.py lines
90-135): the access loop followed by the unconditional
`self.print_results()` call at line 135; `none` if either raises. -/
def runAndReport (pol : Policy σ) (s : SimState σ) (trace : List VPage) :
    Option (SimState σ × List Event × (ℚ × ℚ)) :=
  match run pol s trace with
  | none => none
  | some (s', es) =>
      match print_results s'.stats with
      | none => none
      | some rates => some (s', es, rates)

/-- The victims evicted during a run, in order. -/
def victims (es : List Event) : List VPage :=
  es.filterMap fun e =>
    match e with
    | .faultEvict v _ => some v
    | _ => none

/-- The fault/eviction subsequence of the events (paths 3 and 4). -/
def faultEvents (es : List Event) : List Event :=
  es.filter fun e =>
    match e with
    | .faultFree _ => true
    | .faultEvict _ _ => true
    | _ => false

/-- Number of occupied slots of the frame pool (non-`None` entries of
the forward array). -/
def occupiedCount (m : Memory) : Nat :=
  (m.frames.filterMap id).length

/-- The state of `MarkovPredictive` (src/algorithms.py): the trained
page→index dict, the transition matrix (row-normalised counts, embedded
as exact rationals), and the last accessed page (sentinel `-1`). -/
structure MarkovState where
  num_frames : Nat
  page_to_index : VPage → Option Nat
  transition_matrix : Nat → Nat → ℚ
  last_accessed_page : VPage

/-- One iteration of the victim-selection loop of
`MarkovPredictive.page_fault` (src/algorithms.py lines 128-134):
`acc.1 = none` stands for the initial `min_prob = float('inf')`. -/
def markovScan (f : VPage → ℚ) (acc : Option ℚ × VPage) (q : VPage) :
    Option ℚ × VPage :=
  match acc.1 with
  | none => (some (f q), q)
  | some m => if f q < m then (some (f q), q) else acc

/-- The body of the victim-selection loop, including the
`page_to_index.get(mem_page)` lookup: an absent page yields `None`,
which the source feeds unguarded into numpy indexing (ending in a
ValueError at the `prob < min_prob` comparison when more than one page
was trained) — an error, not a zero probability. -/
def markovBody (st : MarkovState) (li : Nat) (acc : Option ℚ × VPage)
    (mem_page : VPage) : Except String (Option ℚ × VPage) :=
  match st.page_to_index mem_page with
  | none => .error "unguarded None index into transition_matrix"
  | some mi => .ok (markovScan (fun _ => st.transition_matrix li mi) acc mem_page)

/-- Embeds `MarkovPredictive.page_fault` (src/algorithms.py lines 110-144).
An absent `page_to_index` lookup (for the last accessed page or a
resident page) yields `None`, which the source feeds unguarded into
numpy matrix indexing — an error, not a zero probability; we return
`Except.error` there.  `pages_in_memory[0]` on an empty list is an
IndexError, also an error.  Returns the victim (`-1` when memory is
not full) and the state after the final `page_accessed(page_num)`. -/
def MarkovPredictive.page_fault (st : MarkovState) (page_num : VPage)
    (frames : List (Option VPage)) : Except String (VPage × MarkovState) :=
  let pages_in_memory := frames.filterMap id
  let victimE : Except String VPage :=
    if pages_in_memory.length ≥ st.num_frames then
      if st.last_accessed_page ≠ -1 then
        match st.page_to_index st.last_accessed_page with
        | none => .error "unguarded None index into transition_matrix"
        | some li =>
            match pages_in_memory.foldlM (markovBody st li)
                ((none : Option ℚ), (-1 : VPage)) with
            | .error e => .error e
            | .ok r =>
                if r.2 = -1 then
                  match pages_in_memory with
                  | [] => .error "IndexError"
                  | q :: _ => .ok q
                else .ok r.2
      else
        match pages_in_memory with
        | [] => .error "IndexError"
        | q :: _ => .ok q
    else .ok (-1 : VPage)
  match victimE with
  | .error e => .error e
  | .ok victim => .ok (victim, { st with last_accessed_page := page_num })

/-! ## Theorems -/

/-- C9 (counter-evidence): on an empty trace the access loop performs
zero work — it returns the initial state unchanged with no events, all
counters zero and frame pool, page table and cache empty — but
`Simulator.run` then unconditionally calls `print_results()`, which
divides `tlb_hits` by `total_accesses = 0`: a ZeroDivisionError, so the
run does NOT complete normally.  The claim (and spec §7) says an empty
trace must mean "nothing to simulate", not a crash. -/
theorem c9_empty_trace_crashes (σ : Type) (pol : Policy σ) (nf ts : Nat) (a : σ) :
    run pol (SimState.init nf ts a) [] = some (SimState.init nf ts a, []) ∧
    (SimState.init nf ts a).stats = ⟨0, 0, 0, 0, 0⟩ ∧
    occupiedCount (SimState.init nf ts a).memory = 0 ∧
    (SimState.init nf ts a).page_table.mapping = [] ∧
    (SimState.init nf ts a).tlb.cache = [] ∧
    print_results (SimState.init nf ts a).stats = none ∧
    runAndReport pol (SimState.init nf ts a) [] = none := by
  refine ⟨rfl, rfl, ?_, rfl, rfl, rfl, rfl⟩
  simp [occupiedCount, SimState.init, Memory.init]

/-- C10: `Memory.evict_page` on a page absent from the reverse map fails
(the Python `pop` has no default, so it raises KeyError — embedded as
`none`), while `PageTable.evict` on an unmapped page silently returns
the table unchanged. -/
theorem c10_evict_nonresident (m : Memory) (pt : PageTable) (p : VPage)
    (h1 : m.page_to_frame.lookup p = none) (h2 : pt.mapping.lookup p = none) :
    m.evict_page p = none ∧ pt.evict p = pt := by
  constructor
  · simp [Memory.evict_page, h1]
  · simp [PageTable.evict, h2]

/-- Witness for C10 at a concrete non-resident page. -/
theorem c10_evict_nonresident_witness :
    (Memory.init 2).evict_page 5 = none ∧
    PageTable.evict ⟨[((1 : VPage), (0 : Frame))]⟩ 5 = ⟨[((1 : VPage), (0 : Frame))]⟩ :=
  c10_evict_nonresident (Memory.init 2) ⟨[(1, 0)]⟩ 5 (by rfl) (by rfl)

/-- C2 (counter-evidence): `Simulator.run` never invalidates the TLB
entry of an evicted victim.  FIFO, `num_frames = 1`, `tlb_size = 2`,
trace `[1, 2]`: the second access evicts page 1 from the pool and the
table, yet its cache entry `(1, 0)` survives — the final cache still
answers frame 0 for page 1 while the page table no longer maps page 1.
The spec instead requires any cache entry for the victim to be
invalidated in the same step. -/
theorem c2_stale_tlb_after_eviction :
    (run fifoPolicy (SimState.init 1 2 []) [1, 2]).map
      (fun o => (o.1.tlb.cache.lookup 1, o.1.page_table.lookup 1)) =
    some (some 0, none) := by rfl

/-- C4 (counter-evidence): after an eviction the freed-and-reused frame
stays on the free list, so the pool invariants fail in reachable states.
FIFO, `num_frames = 2`, trace `[1, 2, 3]`: 2 slots are occupied but
`num_frames - free_list.length = 1`.  One access later (trace
`[1, 2, 3, 1]`) the stale free frame is handed out again: the page
table holds 3 entries for 2 occupied frames, and the reverse map still
sends page 3 to frame 0 while the forward array holds page 1 there. -/
theorem c4_pool_invariants_violated :
    ((run fifoPolicy (SimState.init 2 0 []) [1, 2, 3]).map
        (fun o => (occupiedCount o.1.memory,
                   o.1.memory.num_frames - o.1.memory.free_frames.length)) =
      some (2, 1)) ∧
    ((run fifoPolicy (SimState.init 2 0 []) [1, 2, 3, 1]).map
        (fun o => (o.1.page_table.mapping.length, occupiedCount o.1.memory,
                   o.1.memory.page_to_frame.lookup 3, o.1.memory.frames.getD 0 none)) =
      some (3, 2, some 0, some 1)) := by
  exact ⟨rfl, rfl⟩

/-- C6 (counter-evidence): FIFO with `num_frames = 2` on trace
`[1, 2, 3, 1, 2]` evicts page 1 at the third access — and then never
evicts again: the frame freed by that eviction was left on the free
list, so the fourth access (a fault on page 1) is treated as having
free space and page 2 is never evicted.  The claimed eviction of page 2
after page 1 does not happen. -/
theorem c6_fifo_evicts_only_page_one :
    (run fifoPolicy (SimState.init 2 0 []) [1, 2, 3, 1, 2]).map
      (fun o => victims o.2) = some [1] := by rfl

/-- C8 (counter-evidence): `tlb_size` changes the fault sequence.  FIFO,
`num_frames = 1`, trace `[1, 2, 1]`: with `tlb_size = 2` the third
access hits the stale cache entry for the evicted page 1, producing
fault events `[free-fault, evict 1]`; with `tlb_size = 0` the same
trace produces `[free-fault, evict 1, free-fault]` — one more page
fault.  The claim says the fault/eviction sequence is independent of
`tlb_size`. -/
theorem c8_tlb_size_changes_faults :
    ((run fifoPolicy (SimState.init 1 2 []) [1, 2, 1]).map
        (fun o => (faultEvents o.2, o.1.stats.page_faults)) =
      some ([.faultFree 0, .faultEvict 1 0], 2)) ∧
    ((run fifoPolicy (SimState.init 1 0 []) [1, 2, 1]).map
        (fun o => (faultEvents o.2, o.1.stats.page_faults)) =
      some ([.faultFree 0, .faultEvict 1 0, .faultFree 0], 3)) := by
  exact ⟨rfl, rfl⟩

/-- One access bumps `total_accesses` by one, exactly one of
`tlb_hits`/`tlb_misses` by one, and exactly one of
`page_hits`/`page_faults` by one. -/
lemma step_stats {σ : Type} (pol : Policy σ) (s : SimState σ) (p : VPage)
    (s' : SimState σ) (e : Event) (h : step pol s p = some (s', e)) :
    s'.stats.total_accesses = s.stats.total_accesses + 1 ∧
    s'.stats.tlb_hits + s'.stats.tlb_misses
      = s.stats.tlb_hits + s.stats.tlb_misses + 1 ∧
    s'.stats.page_hits + s'.stats.page_faults
      = s.stats.page_hits + s.stats.page_faults + 1 := by
  unfold step at h
  split at h
  · simp only [Option.some.injEq, Prod.mk.injEq] at h
    obtain ⟨rfl, rfl⟩ := h
    refine ⟨?_, ?_, ?_⟩ <;> simp <;> omega
  · split at h
    · simp only [Option.some.injEq, Prod.mk.injEq] at h
      obtain ⟨rfl, rfl⟩ := h
      refine ⟨?_, ?_, ?_⟩ <;> simp <;> omega
    · split at h
      · split at h
        · simp at h
        · split at h
          · simp at h
          · simp only [Option.some.injEq, Prod.mk.injEq] at h
            obtain ⟨rfl, rfl⟩ := h
            refine ⟨?_, ?_, ?_⟩ <;> simp <;> omega
      · split at h
        · simp at h
        · simp only [Option.some.injEq, Prod.mk.injEq] at h
          obtain ⟨rfl, rfl⟩ := h
          refine ⟨?_, ?_, ?_⟩ <;> simp <;> omega

/-- Over a completed run, each of the three counter groups grows by the
trace length. -/
lemma run_stats {σ : Type} (pol : Policy σ) (t : List VPage) :
    ∀ (s : SimState σ) (out : SimState σ × List Event),
    run pol s t = some out →
    out.1.stats.total_accesses = s.stats.total_accesses + t.length ∧
    out.1.stats.tlb_hits + out.1.stats.tlb_misses
      = s.stats.tlb_hits + s.stats.tlb_misses + t.length ∧
    out.1.stats.page_hits + out.1.stats.page_faults
      = s.stats.page_hits + s.stats.page_faults + t.length := by
  induction t with
  | nil =>
      intro s out h
      rcases Option.some.inj h with rfl
      exact ⟨rfl, rfl, rfl⟩
  | cons p rest ih =>
      intro s out h
      unfold run at h
      cases hs : step pol s p with
      | none => rw [hs] at h; simp at h
      | some se =>
          obtain ⟨s1, e1⟩ := se
          rw [hs] at h
          simp only [] at h
          cases hr : run pol s1 rest with
          | none => rw [hr] at h; simp at h
          | some outr =>
              rw [hr] at h
              simp only [Option.some.injEq] at h
              obtain ⟨h1, h2, h3⟩ := step_stats pol s p s1 e1 hs
              obtain ⟨g1, g2, g3⟩ := ih s1 outr hr
              have hout : out.1 = outr.1 := by rw [← h]
              rw [hout]
              refine ⟨?_, ?_, ?_⟩ <;> simp only [List.length_cons] <;> omega

/-- C3: after any completed run from a fresh simulator,
`tlb_hits + tlb_misses = total_accesses = page_hits + page_faults`, and
`total_accesses` equals the trace length (it is incremented
unconditionally, once per access; the hit/miss and hit/fault counters
are each bumped exactly once per access on exactly one path). -/
theorem c3_stats_invariant (σ : Type) (pol : Policy σ) (nf ts : Nat) (a : σ)
    (trace : List VPage) (out : SimState σ × List Event)
    (h : run pol (SimState.init nf ts a) trace = some out) :
    out.1.stats.tlb_hits + out.1.stats.tlb_misses = out.1.stats.total_accesses ∧
    out.1.stats.total_accesses = out.1.stats.page_hits + out.1.stats.page_faults ∧
    out.1.stats.total_accesses = trace.length := by
  obtain ⟨h1, h2, h3⟩ := run_stats pol trace _ out h
  simp only [SimState.init] at h1 h2 h3
  omega

/-- Witness for C3: the one-access FIFO run, evaluated concretely. -/
theorem c3_stats_invariant_witness :
    ((⟨⟨1, [some 1], [], [(1, 0)]⟩, ⟨[(1, 0)]⟩, ⟨0, []⟩, [(1 : VPage)],
        ⟨1, 0, 1, 0, 1⟩⟩ : SimState (List VPage)),
      [Event.faultFree 0]).1.stats.tlb_hits +
      ((⟨⟨1, [some 1], [], [(1, 0)]⟩, ⟨[(1, 0)]⟩, ⟨0, []⟩, [(1 : VPage)],
        ⟨1, 0, 1, 0, 1⟩⟩ : SimState (List VPage)),
      [Event.faultFree 0]).1.stats.tlb_misses =
      ((⟨⟨1, [some 1], [], [(1, 0)]⟩, ⟨[(1, 0)]⟩, ⟨0, []⟩, [(1 : VPage)],
        ⟨1, 0, 1, 0, 1⟩⟩ : SimState (List VPage)),
      [Event.faultFree 0]).1.stats.total_accesses ∧
    ((⟨⟨1, [some 1], [], [(1, 0)]⟩, ⟨[(1, 0)]⟩, ⟨0, []⟩, [(1 : VPage)],
        ⟨1, 0, 1, 0, 1⟩⟩ : SimState (List VPage)),
      [Event.faultFree 0]).1.stats.total_accesses =
      ((⟨⟨1, [some 1], [], [(1, 0)]⟩, ⟨[(1, 0)]⟩, ⟨0, []⟩, [(1 : VPage)],
        ⟨1, 0, 1, 0, 1⟩⟩ : SimState (List VPage)),
      [Event.faultFree 0]).1.stats.page_hits +
      ((⟨⟨1, [some 1], [], [(1, 0)]⟩, ⟨[(1, 0)]⟩, ⟨0, []⟩, [(1 : VPage)],
        ⟨1, 0, 1, 0, 1⟩⟩ : SimState (List VPage)),
      [Event.faultFree 0]).1.stats.page_faults ∧
    ((⟨⟨1, [some 1], [], [(1, 0)]⟩, ⟨[(1, 0)]⟩, ⟨0, []⟩, [(1 : VPage)],
        ⟨1, 0, 1, 0, 1⟩⟩ : SimState (List VPage)),
      [Event.faultFree 0]).1.stats.total_accesses = [(1 : VPage)].length :=
  c3_stats_invariant (List VPage) fifoPolicy 1 0 [] [1] _ (by rfl)

/-- Guard of path 1 (§4.4): the TLB lookup hits. -/
def onTLBHitPath (s : SimState σ) (p : VPage) : Prop :=
  (s.tlb.lookup p).1.isSome = true

/-- Guard of path 2: the TLB misses but the page table hits. -/
def onTableHitPath (s : SimState σ) (p : VPage) : Prop :=
  (s.tlb.lookup p).1 = none ∧ (s.page_table.lookup p).isSome = true

/-- Guard of path 3: page fault with a free frame available. -/
def onFreeFaultPath (s : SimState σ) (p : VPage) : Prop :=
  (s.tlb.lookup p).1 = none ∧ s.page_table.lookup p = none ∧
    s.memory.is_full = false

/-- Guard of path 4: page fault with a full pool (eviction required). -/
def onEvictFaultPath (s : SimState σ) (p : VPage) : Prop :=
  (s.tlb.lookup p).1 = none ∧ s.page_table.lookup p = none ∧
    s.memory.is_full = true

/-- C1: every access runs exactly one of the four paths, in priority
order (the guards are exhaustive and pairwise exclusive), and the step
emits the matching event.  On the eviction path, the policy is
consulted via `choose_victim` on the pre-mutation state (`s.alg` and
`s.memory.frames` as they were before any change); every pool/table/
cache mutation is expressed purely through the Simulator-side
operations `evict_page`, `PageTable.evict`/`update`, `load_page` and
`TLB.add` applied to the victim the policy returned (the policy's type
lets it touch only its own bookkeeping); and the final policy state is
`page_loaded` applied after placement — the resulting memory already
holds the faulting page. -/
theorem c1_access_state_machine (σ : Type) (pol : Policy σ) (s : SimState σ) (p : VPage) :
    (onTLBHitPath s p ∨ onTableHitPath s p ∨ onFreeFaultPath s p ∨
      onEvictFaultPath s p) ∧
    (¬ (onTLBHitPath s p ∧ onTableHitPath s p)) ∧
    (¬ (onTLBHitPath s p ∧ onFreeFaultPath s p)) ∧
    (¬ (onTLBHitPath s p ∧ onEvictFaultPath s p)) ∧
    (¬ (onTableHitPath s p ∧ onFreeFaultPath s p)) ∧
    (¬ (onTableHitPath s p ∧ onEvictFaultPath s p)) ∧
    (¬ (onFreeFaultPath s p ∧ onEvictFaultPath s p)) ∧
    (onTLBHitPath s p → ∃ s', step pol s p = some (s', .tlbHit) ∧
        s'.memory = s.memory ∧ s'.page_table = s.page_table ∧
        s'.alg = pol.page_accessed s.alg p) ∧
    (onTableHitPath s p → ∃ s', step pol s p = some (s', .tableHit) ∧
        s'.memory = s.memory ∧ s'.page_table = s.page_table ∧
        s'.alg = pol.page_accessed s.alg p) ∧
    (onFreeFaultPath s p → ∃ s' f, step pol s p = some (s', .faultFree f) ∧
        s'.alg = pol.page_loaded s.alg p) ∧
    (onEvictFaultPath s p → ∀ s' e, step pol s p = some (s', e) →
      ∃ v a1 f m1,
        pol.choose_victim s.alg s.memory.frames = some (v, a1) ∧
        s.memory.evict_page v = some (f, m1) ∧
        e = .faultEvict v f ∧
        s'.memory = m1.load_page p f ∧
        s'.page_table = (s.page_table.evict v).update p f ∧
        s'.tlb = s.tlb.add p f ∧
        s'.alg = pol.page_loaded a1 p) := by
  rcases htl : s.tlb.lookup p with ⟨of, tlb'⟩
  cases of with
  | some f0 =>
      refine ⟨Or.inl ?_, ?_, ?_, ?_, ?_, ?_, ?_, ?_, ?_, ?_, ?_⟩ <;>
        simp [onTLBHitPath, onTableHitPath, onFreeFaultPath, onEvictFaultPath,
              htl, step]
  | none =>
      cases hpt : s.page_table.lookup p with
      | some f1 =>
          refine ⟨Or.inr (Or.inl ?_), ?_, ?_, ?_, ?_, ?_, ?_, ?_, ?_, ?_, ?_⟩ <;>
            simp [onTLBHitPath, onTableHitPath, onFreeFaultPath, onEvictFaultPath,
                  htl, hpt, step]
      | none =>
          cases hful : s.memory.is_full with
          | false =>
              rcases hfree : s.memory.get_free_frame with _ | ⟨f2, m2⟩
              · exact absurd hfree (by
                  simp [Memory.get_free_frame, Memory.is_full,
                        List.isEmpty_iff] at hful ⊢
                  cases hfl : s.memory.free_frames with
                  | nil => exact absurd hfl hful
                  | cons a l => simp [hfl])
              · refine ⟨Or.inr (Or.inr (Or.inl ?_)), ?_, ?_, ?_, ?_, ?_, ?_,
                        ?_, ?_, ?_, ?_⟩ <;>
                  simp [onTLBHitPath, onTableHitPath, onFreeFaultPath,
                        onEvictFaultPath, htl, hpt, hful, hfree, step]
          | true =>
              have hlast : onEvictFaultPath s p → ∀ s' e,
                  step pol s p = some (s', e) →
                  ∃ v a1 f m1,
                    pol.choose_victim s.alg s.memory.frames = some (v, a1) ∧
                    s.memory.evict_page v = some (f, m1) ∧
                    e = .faultEvict v f ∧
                    s'.memory = m1.load_page p f ∧
                    s'.page_table = (s.page_table.evict v).update p f ∧
                    s'.tlb = s.tlb.add p f ∧
                    s'.alg = pol.page_loaded a1 p := by
                intro _ s' e hstep
                rcases hcv : pol.choose_victim s.alg s.memory.frames with _ | ⟨v, a1⟩
                · have hnone : step pol s p = none := by
                    simp [step, htl, hpt, hful, hcv]
                  rw [hnone] at hstep; simp at hstep
                · rcases hev : s.memory.evict_page v with _ | ⟨f3, m3⟩
                  · have hnone : step pol s p = none := by
                      simp [step, htl, hpt, hful, hcv, hev]
                    rw [hnone] at hstep; simp at hstep
                  · have hstep2 : step pol s p = some
                        ({ memory := m3.load_page p f3
                           page_table := (s.page_table.evict v).update p f3
                           tlb := s.tlb.add p f3
                           alg := pol.page_loaded a1 p
                           stats := { s.stats with
                             total_accesses := s.stats.total_accesses + 1
                             tlb_misses := s.stats.tlb_misses + 1
                             page_faults := s.stats.page_faults + 1 } },
                          .faultEvict v f3) := by
                      simp [step, htl, hpt, hful, hcv, hev]
                    rw [hstep2] at hstep
                    simp only [Option.some.injEq, Prod.mk.injEq] at hstep
                    obtain ⟨rfl, rfl⟩ := hstep
                    exact ⟨v, a1, f3, m3, rfl, hev, rfl, rfl, rfl, rfl, rfl⟩
              refine ⟨Or.inr (Or.inr (Or.inr ?_)), ?_, ?_, ?_, ?_, ?_, ?_,
                      ?_, ?_, ?_, hlast⟩ <;>
                simp [onTLBHitPath, onTableHitPath, onFreeFaultPath,
                      onEvictFaultPath, htl, hpt, hful, step]

/-- A full one-frame state (page 1 resident in frame 0) on which the
next access to page 2 must take the eviction path. -/
def c1EvictState : SimState (List VPage) :=
  ⟨⟨1, [some 1], [], [(1, 0)]⟩, ⟨[(1, 0)]⟩, ⟨0, []⟩, [1], ⟨1, 0, 1, 0, 1⟩⟩

/-- The state produced by stepping `c1EvictState` on page 2. -/
def c1EvictResult : SimState (List VPage) :=
  ⟨⟨1, [some 2], [0], [(2, 0)]⟩, ⟨[(2, 0)]⟩, ⟨0, []⟩, [2], ⟨2, 0, 2, 0, 2⟩⟩

/-- Witness for C1: the eviction-path characterisation, instantiated on
a concrete full state under FIFO. -/
theorem c1_access_state_machine_witness :
    ∃ v a1 f m1,
      fifoPolicy.choose_victim c1EvictState.alg c1EvictState.memory.frames
        = some (v, a1) ∧
      c1EvictState.memory.evict_page v = some (f, m1) ∧
      Event.faultEvict 1 0 = .faultEvict v f ∧
      c1EvictResult.memory = m1.load_page 2 f ∧
      c1EvictResult.page_table = (c1EvictState.page_table.evict v).update 2 f ∧
      c1EvictResult.tlb = c1EvictState.tlb.add 2 f ∧
      c1EvictResult.alg = fifoPolicy.page_loaded a1 2 :=
  (c1_access_state_machine (List VPage) fifoPolicy c1EvictState
      2).2.2.2.2.2.2.2.2.2.2 (by exact ⟨rfl, rfl, rfl⟩) c1EvictResult
    (.faultEvict 1 0) (by rfl)

/-- C7: under LRU with `num_frames = 2`, trace `[1, 2, 1, 3]` and ANY
`tlb_size`, the hit on page 1 at the third access refreshes page 1's
recency, so the fault on page 3 chooses page 2 (not page 1) as the
victim: the run's eviction sequence is exactly `[2]`. -/
theorem c7_lru_evicts_page_two (t : Nat) :
    (run lruPolicy (SimState.init 2 t []) [1, 2, 1, 3]).map
      (fun o => victims o.2) = some [2] := by
  match t with
  | 0 => rfl
  | 1 => rfl
  | 2 => rfl
  | (n + 3) =>
      have h1 : (1 > n + 3) = False := by simp
      have h2 : (2 > n + 3) = False := eq_false (by omega)
      have h3 : (3 > n + 3) = False := eq_false (by omega)
      have hr : List.range 2 = [0, 1] := rfl
      have e1 : step lruPolicy (SimState.init 2 (n + 3) []) 1 =
          some (⟨⟨2, [some 1, none], [1], [(1, 0)]⟩, ⟨[(1, 0)]⟩,
                 ⟨n + 3, [(1, 0)]⟩, [1], ⟨1, 0, 1, 0, 1⟩⟩, .faultFree 0) := by
        simp [step, SimState.init, Memory.init, TLB.lookup, TLB.add,
              PageTable.lookup, PageTable.update, Memory.is_full,
              Memory.get_free_frame, Memory.load_page, lruPolicy,
              lruPageAccessed, hr, h1]
      have e2 : step lruPolicy
          (⟨⟨2, [some 1, none], [1], [(1, 0)]⟩, ⟨[(1, 0)]⟩,
            ⟨n + 3, [(1, 0)]⟩, [1], ⟨1, 0, 1, 0, 1⟩⟩ : SimState (List VPage)) 2 =
          some (⟨⟨2, [some 1, some 2], [], [(1, 0), (2, 1)]⟩,
                 ⟨[(1, 0), (2, 1)]⟩, ⟨n + 3, [(1, 0), (2, 1)]⟩, [1, 2],
                 ⟨2, 0, 2, 0, 2⟩⟩, .faultFree 1) := by
        simp [step, TLB.lookup, TLB.add, PageTable.lookup, PageTable.update,
              Memory.is_full, Memory.get_free_frame, Memory.load_page,
              lruPolicy, lruPageAccessed, List.lookup, h2]
      have e3 : step lruPolicy
          (⟨⟨2, [some 1, some 2], [], [(1, 0), (2, 1)]⟩,
            ⟨[(1, 0), (2, 1)]⟩, ⟨n + 3, [(1, 0), (2, 1)]⟩, [1, 2],
            ⟨2, 0, 2, 0, 2⟩⟩ : SimState (List VPage)) 1 =
          some (⟨⟨2, [some 1, some 2], [], [(1, 0), (2, 1)]⟩,
                 ⟨[(1, 0), (2, 1)]⟩, ⟨n + 3, [(2, 1), (1, 0)]⟩, [2, 1],
                 ⟨3, 1, 2, 1, 2⟩⟩, .tlbHit) := by
        simp [step, TLB.lookup, lruPolicy, lruPageAccessed, List.lookup,
              List.eraseP, List.erase]
      have e4 : step lruPolicy
          (⟨⟨2, [some 1, some 2], [], [(1, 0), (2, 1)]⟩,
            ⟨[(1, 0), (2, 1)]⟩, ⟨n + 3, [(2, 1), (1, 0)]⟩, [2, 1],
            ⟨3, 1, 2, 1, 2⟩⟩ : SimState (List VPage)) 3 =
          some (⟨⟨2, [some 1, some 3], [1], [(1, 0), (3, 1)]⟩,
                 ⟨[(1, 0), (3, 1)]⟩, ⟨n + 3, [(2, 1), (1, 0), (3, 1)]⟩, [1, 3],
                 ⟨4, 1, 3, 1, 3⟩⟩, .faultEvict 2 1) := by
        simp [step, TLB.lookup, TLB.add, PageTable.lookup, PageTable.update,
              PageTable.evict, Memory.is_full, Memory.evict_page,
              Memory.load_page, lruPolicy, lruPageAccessed, List.lookup,
              List.eraseP, List.erase, h3]
      have hrun : run lruPolicy (SimState.init 2 (n + 3) []) [1, 2, 1, 3] =
          some (⟨⟨2, [some 1, some 3], [1], [(1, 0), (3, 1)]⟩,
                 ⟨[(1, 0), (3, 1)]⟩, ⟨n + 3, [(2, 1), (1, 0), (3, 1)]⟩, [1, 3],
                 ⟨4, 1, 3, 1, 3⟩⟩,
                [.faultFree 0, .faultFree 1, .tlbHit, .faultEvict 2 1]) := by
        simp [run, e1, e2, e3, e4]
      rw [hrun]
      rfl
/-- When the page is in the trained index, the loop body succeeds and
performs one `markovScan` step for the probability row of `li`. -/
lemma markovBody_indexed (st : MarkovState) (li : Nat) (acc : Option ℚ × VPage)
    (q : VPage) (mi : Nat) (h : st.page_to_index q = some mi) :
    markovBody st li acc q =
      .ok (markovScan
        (fun x => st.transition_matrix li ((st.page_to_index x).getD 0)) acc q) := by
  rcases acc with ⟨o, w⟩
  cases o <;> simp [markovBody, markovScan, h]

/-- When every page of the list is in the trained index, the monadic
selection loop is the pure `markovScan` fold. -/
lemma markov_fold_indexed (st : MarkovState) (li : Nat) :
    ∀ (l : List VPage) (acc : Option ℚ × VPage),
      (∀ q ∈ l, (st.page_to_index q).isSome) →
      l.foldlM (markovBody st li) acc =
        .ok (l.foldl
          (markovScan (fun x => st.transition_matrix li ((st.page_to_index x).getD 0)))
          acc) := by
  intro l
  induction l with
  | nil => intro acc _; rfl
  | cons q rest ih =>
      intro acc h
      have hq := h q (by simp)
      rcases hmi : st.page_to_index q with _ | mi
      · rw [hmi] at hq; simp at hq
      · have h1 : (q :: rest).foldlM (markovBody st li) acc =
            rest.foldlM (markovBody st li)
              (markovScan
                (fun x => st.transition_matrix li ((st.page_to_index x).getD 0))
                acc q) := by
          simp only [List.foldlM]
          rw [markovBody_indexed st li acc q mi hmi]
          rfl
        rw [h1, List.foldl_cons]
        exact ih _ (fun x hx => h x (by simp [hx]))

/-- The `markovScan` fold simulates the fold underlying
`List.argmin`: both keep the first strict minimiser seen so far. -/
lemma markov_scan_argAux (f : VPage → ℚ) :
    ∀ (l : List VPage) (o : Option VPage) (acc : Option ℚ × VPage),
      ((o = none ∧ acc = ((none : Option ℚ), (-1 : VPage))) ∨
        (∃ q, o = some q ∧ acc = (some (f q), q))) →
      ((l.foldl (List.argAux fun b c => f b < f c) o = none ∧
          l.foldl (markovScan f) acc = ((none : Option ℚ), (-1 : VPage))) ∨
        (∃ q, l.foldl (List.argAux fun b c => f b < f c) o = some q ∧
          l.foldl (markovScan f) acc = (some (f q), q))) := by
  intro l
  induction l with
  | nil =>
      intro o acc h
      rcases h with ⟨rfl, rfl⟩ | ⟨q, rfl, rfl⟩
      · exact Or.inl ⟨rfl, rfl⟩
      · exact Or.inr ⟨q, rfl, rfl⟩
  | cons a rest ih =>
      intro o acc h
      rw [List.foldl_cons, List.foldl_cons]
      apply ih
      rcases h with ⟨rfl, rfl⟩ | ⟨q, rfl, rfl⟩
      · exact Or.inr ⟨a, rfl, rfl⟩
      · right
        by_cases hlt : f a < f q
        · exact ⟨a, by simp [List.argAux, hlt], by simp [markovScan, hlt]⟩
        · exact ⟨q, by simp [List.argAux, hlt], by simp [markovScan, hlt]⟩

/-- The selection loop started from `min_prob = ∞, victim = -1`
computes the first argmin of the probabilities. -/
lemma markov_fold_argmin (f : VPage → ℚ) (l : List VPage) (v : VPage)
    (h : l.argmin f = some v) :
    l.foldl (markovScan f) ((none : Option ℚ), (-1 : VPage)) = (some (f v), v) := by
  have hrel := markov_scan_argAux f l none ((none : Option ℚ), (-1 : VPage))
    (Or.inl ⟨rfl, rfl⟩)
  simp only [List.argmin] at h
  rcases hrel with ⟨h1, _⟩ | ⟨q, h1, h2⟩
  · rw [h1] at h; simp at h
  · rw [h1] at h
    rcases Option.some.inj h with rfl
    exact h2

/-- Over a constant-zero cost the first element is the argmin. -/
lemma argmin_const_zero (f : VPage → ℚ) (q : VPage) (rest : List VPage)
    (h : ∀ x ∈ q :: rest, f x = 0) :
    (q :: rest).argmin f = some q := by
  rw [List.argmin_eq_some_iff]
  refine ⟨by simp, ?_, ?_⟩
  · intro a ha
    rw [h q (by simp), h a ha]
  · intro a _ _
    simp

/-- Core evaluation of `MarkovPredictive.page_fault` in the trained,
fully indexed case: the victim is the first argmin in frame order. -/
lemma markov_page_fault_eval_argmin (st : MarkovState) (page_num : VPage)
    (frames : List (Option VPage)) (li : Nat) (v : VPage)
    (hfull : (frames.filterMap id).length ≥ st.num_frames)
    (hlast : st.last_accessed_page ≠ -1)
    (hli : st.page_to_index st.last_accessed_page = some li)
    (hidx : ∀ q ∈ frames.filterMap id, (st.page_to_index q).isSome)
    (hneg : (-1 : VPage) ∉ frames.filterMap id)
    (hargmin : (frames.filterMap id).argmin
      (fun q => st.transition_matrix li ((st.page_to_index q).getD 0)) = some v) :
    MarkovPredictive.page_fault st page_num frames =
      .ok (v, { st with last_accessed_page := page_num }) := by
  have hfold := markov_fold_indexed st li (frames.filterMap id)
    ((none : Option ℚ), (-1 : VPage)) hidx
  have hscan := markov_fold_argmin
    (fun q => st.transition_matrix li ((st.page_to_index q).getD 0))
    (frames.filterMap id) v hargmin
  have hv : v ∈ frames.filterMap id := List.argmin_mem hargmin
  have hvne : ¬ (v = -1) := fun hcon => hneg (hcon ▸ hv)
  simp [MarkovPredictive.page_fault, hfull, hlast, hli, hfold, hscan, hvne]

/-- C5 (amended): `MarkovPredictive.page_fault`, when memory is full,
(1) with no history (`last = -1`) evicts the first resident page;
(2) when the last accessed page is absent from the trained index the
unguarded matrix indexing is an error — NOT a zero-probability
fallback; (3) with a trained, fully indexed history it evicts the
first resident page (frame-array order) attaining the minimum
transition probability, ties broken by strict `<` against the running
minimum; and (4) when every candidate has zero probability the first
resident page is evicted. -/
theorem c5_markov_decision (st : MarkovState) (page_num : VPage)
    (frames : List (Option VPage))
    (hfull : (frames.filterMap id).length ≥ st.num_frames) :
    (st.last_accessed_page = -1 → frames.filterMap id ≠ [] →
      MarkovPredictive.page_fault st page_num frames =
        .ok ((frames.filterMap id).headI,
             { st with last_accessed_page := page_num })) ∧
    (st.last_accessed_page ≠ -1 →
      st.page_to_index st.last_accessed_page = none →
      MarkovPredictive.page_fault st page_num frames =
        .error "unguarded None index into transition_matrix") ∧
    (∀ li v, st.last_accessed_page ≠ -1 →
      st.page_to_index st.last_accessed_page = some li →
      (∀ q ∈ frames.filterMap id, (st.page_to_index q).isSome) →
      (-1 : VPage) ∉ frames.filterMap id →
      (frames.filterMap id).argmin
        (fun q => st.transition_matrix li ((st.page_to_index q).getD 0)) = some v →
      MarkovPredictive.page_fault st page_num frames =
        .ok (v, { st with last_accessed_page := page_num })) ∧
    (∀ li, st.last_accessed_page ≠ -1 →
      st.page_to_index st.last_accessed_page = some li →
      (∀ q ∈ frames.filterMap id, (st.page_to_index q).isSome) →
      (-1 : VPage) ∉ frames.filterMap id →
      (∀ q ∈ frames.filterMap id,
        st.transition_matrix li ((st.page_to_index q).getD 0) = 0) →
      frames.filterMap id ≠ [] →
      MarkovPredictive.page_fault st page_num frames =
        .ok ((frames.filterMap id).headI,
             { st with last_accessed_page := page_num })) := by
  refine ⟨?_, ?_, ?_, ?_⟩
  · intro hlast hne
    rcases hpim : frames.filterMap id with _ | ⟨q, rest⟩
    · exact absurd hpim hne
    · rw [hpim] at hfull
      have hfull2 : st.num_frames ≤ rest.length + 1 := by simpa using hfull
      simp [MarkovPredictive.page_fault, hpim, hlast, hfull, hfull2]
  · intro hlast hnone
    simp [MarkovPredictive.page_fault, hfull, hlast, hnone]
  · intro li v hlast hli hidx hneg hargmin
    exact markov_page_fault_eval_argmin st page_num frames li v hfull hlast hli
      hidx hneg hargmin
  · intro li hlast hli hidx hneg hzero hne
    rcases hpim : frames.filterMap id with _ | ⟨q, rest⟩
    · exact absurd hpim hne
    · have hzero' : ∀ x ∈ q :: rest,
          (fun y => st.transition_matrix li ((st.page_to_index y).getD 0)) x = 0 := by
        rw [← hpim]; exact hzero
      have hargmin : (q :: rest).argmin
          (fun y => st.transition_matrix li ((st.page_to_index y).getD 0)) =
          some q := argmin_const_zero _ q rest hzero'
      have hres := markov_page_fault_eval_argmin st page_num frames li q hfull
        hlast hli hidx hneg (by rw [hpim]; exact hargmin)
      rw [hres]
      simp

/-- C5 (counter-evidence for the original wording): when the last
accessed page (here 5) is absent from the trained page index, the
source does NOT treat it as zero probability and fall back to evicting
the first resident page (which would be `.ok` with victim 1): the
`.get` returns `None`, which flows unguarded into the numpy matrix
indexing (`transition_matrix[None][...]`), which blows up at the
`prob < min_prob` comparison — an error, not a graceful fallback. -/
theorem c5_markov_unknown_last_is_error :
    MarkovPredictive.page_fault
      ⟨2, (fun p => if p = 1 then some 0 else if p = 2 then some 1 else none),
       (fun _ _ => 0), 5⟩ 7 [some 1, some 2] =
      .error "unguarded None index into transition_matrix" := by rfl

/-- Witness for C5: a fully trained two-page scenario where the argmin
case picks page 2 (probability 0) over page 1 (probability 1). -/
theorem c5_markov_decision_witness :
    MarkovPredictive.page_fault
      ⟨2, (fun p => if p = 1 then some 0 else if p = 2 then some 1
            else if p = 5 then some 2 else none),
       (fun i j => if i = 2 ∧ j = 0 then 1 else 0), 5⟩ 7 [some 1, some 2] =
      .ok (2,
        ⟨2, (fun p => if p = 1 then some 0 else if p = 2 then some 1
              else if p = 5 then some 2 else none),
         (fun i j => if i = 2 ∧ j = 0 then 1 else 0), 7⟩) :=
  (c5_markov_decision
      ⟨2, (fun p => if p = 1 then some 0 else if p = 2 then some 1
            else if p = 5 then some 2 else none),
       (fun i j => if i = 2 ∧ j = 0 then 1 else 0), 5⟩ 7 [some 1, some 2]
      (by decide)).2.2.1 2 2 (by decide) (by rfl) (by decide) (by decide)
    (by rfl)

end PagingSim
